import Mathlib

/-
Verification of the velocyto.py single-sample pipeline (`velocyto/commands/_run.py`)
and the batch dispatcher (`velocyto/commands/multi10x.py`).

The Lean definitions below are a shallow embedding of the Python source:
  - Gene / Interval mirror the fields of the counting-engine objects that
    `_run` reads after counting completes.
  - Python dicts are modelled as association lists with in-place update
    semantics (`dinsert`, `dupdate`, `dlookup`).
  - numpy matrices are modelled as `List (List Nat)`.
  - fallible code returns `Except`.
-/

set_option autoImplicit false

namespace Velocyto

/-- One genomic interval of a gene, as read from the counting engine
(fields used at `_run.py` lines 154-160). -/
structure Interval where
  ivltype : String
  start : Int
  end_ : Int
  is_sure_valid_intron : Bool
  deriving Repr, DecidableEq, Inhabited

/-- A gene object of the counting engine, restricted to the fields `_run`
reads during aggregation and output (lines 151-200 of `_run.py`). -/
structure Gene where
  genename : String
  geneid : String
  chrom : String
  strand : String
  start : Int
  end_ : Int
  ivls : List Interval
  ivljunction5_read_counts : List Nat
  ivlinside_read_counts : List Nat
  ivljunction3_read_counts : List Nat
  spliced_mol_counts : List Nat
  unspliced_mol_counts : List Nat
  ambiguous_mol_counts : List Nat
  deriving Repr, DecidableEq, Inhabited

/- ---------------------------------------------------------------
Python dict model: association lists with first-occurrence replacement.
`dinsert` is `d[k] = v`, `dupdate` is `d.update(d2)`, `dlookup` is `d.get(k)`.
--------------------------------------------------------------- -/

/-- Python `d[k] = v`: replace the first binding of `k` in place, or append. -/
def dinsert {α : Type} (k : String) (v : α) : List (String × α) → List (String × α)
  | [] => [(k, v)]
  | p :: ps => if p.1 = k then (k, v) :: ps else p :: dinsert k v ps

/-- Python `d.update(d2)`: insert every binding of `d2` into `d`, left to right. -/
def dupdate {α : Type} (d d2 : List (String × α)) : List (String × α) :=
  d2.foldl (fun acc p => dinsert p.1 p.2 acc) d

/-- Python `d.get(k)`: value of the first binding of `k`, if any. -/
def dlookup {α : Type} (k : String) : List (String × α) → Option α
  | [] => none
  | p :: ps => if p.1 = k then some p.2 else dlookup k ps

/- ---------------------------------------------------------------
Barcode reconciliation (`_run.py` lines 51-59 and 116-120).
--------------------------------------------------------------- -/

/-- Python `str.isspace` for the characters `str.strip()` removes. -/
def isPySpace (c : Char) : Bool :=
  c = ' ' || c = '\t' || c = '\n' || c = '\r' || c = '\x0b' || c = '\x0c'

/-- Python `l.strip()` applied to a line of the barcode file (line 55). -/
def stripLine (s : String) : String :=
  String.mk (((s.data.dropWhile isPySpace).reverse.dropWhile isPySpace).reverse)

/-- Prevalidated mode, line 55: `valid_bcs_list = [l.strip() for l in open(bcfile).readlines()]`. -/
def prevalidatedBcs (lines : List String) : List String :=
  lines.map stripLine

/-- Prevalidated mode, line 56: `[f"{sampleid}:{v_bc}" for v_bc in valid_bcs_list]`.
Note: the barcode is used verbatim; no suffix is appended here. -/
def prevalidatedCellIds (sampleid : String) (lines : List String) : List String :=
  (prevalidatedBcs lines).map (fun v_bc => sampleid ++ ":" ++ v_bc)

/-- Insertion into a list of (index, barcode) pairs sorted lexicographically,
modelling Python `sorted` over `(v, k)` tuples (line 118). -/
def insertPair (p : Nat × String) : List (Nat × String) → List (Nat × String)
  | [] => [p]
  | q :: qs =>
    if p.1 < q.1 ∨ (p.1 = q.1 ∧ p.2 ≤ q.2) then p :: q :: qs else q :: insertPair p qs

/-- Python `sorted([(v, k) for k, v in valid_bcs2idx.items()])` (line 118). -/
def sortPairs (l : List (Nat × String)) : List (Nat × String) :=
  l.foldr insertPair []

/-- Discovered mode, line 118: the barcode list recovered from the counting
engine table `valid_bcs2idx`, ordered by the engine index. -/
def discoveredBcs (tbl : List (String × Nat)) : List String :=
  (sortPairs (tbl.map (fun p => (p.2, p.1)))).map (fun p => p.2)

/-- Discovered mode, line 119: `[f"{sampleid}:{v_bc}-1" for v_bc in valid_bcs_list]`. -/
def discoveredCellIds (sampleid : String) (tbl : List (String × Nat)) : List String :=
  (discoveredBcs tbl).map (fun v_bc => sampleid ++ ":" ++ v_bc ++ "-1")

/-- Which object is authoritative for the final cell ordering: the supplied
barcode file (Prevalidated) or the counting-engine table (Discovered). -/
inductive BcSource where
  | prevalidated (lines : List String)
  | discovered (tbl : List (String × Nat))

/-- The final `valid_bcs_list` of a run (line 55 resp. line 118). -/
def finalBcs : BcSource → List String
  | .prevalidated lines => prevalidatedBcs lines
  | .discovered tbl => discoveredBcs tbl

/-- The final `valid_cellid_list` of a run (line 56 resp. line 119). -/
def finalCellIds (sampleid : String) : BcSource → List String
  | .prevalidated lines => prevalidatedCellIds sampleid lines
  | .discovered tbl => discoveredCellIds sampleid tbl

/-- The shape of a cell-identity entry asserted by the spec:
`{sampleid}:{barcode}-1`. -/
def hasCellIdForm (sampleid entry : String) : Prop :=
  ∃ bare : String, entry = sampleid ++ ":" ++ bare ++ "-1"

/-- Prevalidated-mode barcode reconciliation including the example-logging
statement of line 59, which indexes `valid_bcs_list[0]` and therefore
raises `IndexError` on an empty barcode file. -/
def prevalidatedReconcile (sampleid : String) (lines : List String) :
    Except String (List String) :=
  match prevalidatedBcs lines with
  | [] => Except.error "IndexError: list index out of range"
  | _ :: _ => Except.ok (prevalidatedCellIds sampleid lines)

/- ---------------------------------------------------------------
Metadata merge (`_run.py` lines 62-81 and 125-126).
--------------------------------------------------------------- -/

/-- Lines 66-75: dispatch on the number of rows returned by
`sample_metadata.where("SampleID", sampleid)`.  Zero rows: log a non-fatal
error and use `{}`.  More than one row: `sys.exit(1)`.  One row: its fields. -/
def metadataSelect (rows : List (List (String × String))) :
    Except Nat (List (String × String)) :=
  match rows with
  | [] => Except.ok []
  | [r] => Except.ok r
  | _ => Except.error 1

/-- Lines 122-126: `ca = {"CellID": cellids}; ca.update(additional_ca);`
then `ca[key] = np.array([value] * len(valid_cellid_list))` per metadata field. -/
def buildCA (cellids : List String) (additional_ca : List (String × List String))
    (sample : List (String × String)) : List (String × List String) :=
  sample.foldl (fun acc kv => dinsert kv.1 (List.replicate cellids.length kv.2) acc)
    (dupdate [("CellID", cellids)] additional_ca)

/- ---------------------------------------------------------------
Output assembly: row attributes and layers (`_run.py` lines 177-210).
--------------------------------------------------------------- -/

/-- Lines 177-190: the six row-attribute arrays, one entry per gene, in the
order of `atr_table`; `Start` and `End` are cast to int before storage. -/
def buildRA (genes : List Gene) : List (String × List String) :=
  [("Gene", genes.map (fun g => g.genename)),
   ("Accession", genes.map (fun g => g.geneid)),
   ("Chromosome", genes.map (fun g => g.chrom)),
   ("Strand", genes.map (fun g => g.strand)),
   ("Start", genes.map (fun g => toString g.start)),
   ("End", genes.map (fun g => toString g.end_))]

/-- Line 198: row `i` of the spliced matrix is `genes[i].spliced_mol_counts`. -/
def layerSpliced (genes : List Gene) : List (List Nat) :=
  genes.map (fun g => g.spliced_mol_counts)

/-- Line 199: row `i` of the unspliced matrix is `genes[i].unspliced_mol_counts`. -/
def layerUnspliced (genes : List Gene) : List (List Nat) :=
  genes.map (fun g => g.unspliced_mol_counts)

/-- Line 200: row `i` of the ambiguous matrix is `genes[i].ambiguous_mol_counts`. -/
def layerAmbiguous (genes : List Gene) : List (List Nat) :=
  genes.map (fun g => g.ambiguous_mol_counts)

/-- Elementwise matrix addition (numpy `+` on equal-shaped arrays). -/
def matAdd (a b : List (List Nat)) : List (List Nat) :=
  List.zipWith (fun r s => List.zipWith (fun x y => x + y) r s) a b

/-- Line 202: `total = spliced + unspliced + ambiguous`. -/
def totalLayer (genes : List Gene) : List (List Nat) :=
  matAdd (matAdd (layerSpliced genes) (layerUnspliced genes)) (layerAmbiguous genes)

/- ---------------------------------------------------------------
Structural statistics artifact (`_run.py` lines 148-169).
--------------------------------------------------------------- -/

/-- Truncation to 3 characters, modelling the `|S3` dtype of `type_intervals`. -/
def take3 (s : String) : String :=
  String.mk (s.data.take 3)

/-- Reduction modulo `2 ^ 32`, modelling the `uint32` dtype of `len_intervals`. -/
def u32 (n : Nat) : Nat :=
  n % 2 ^ 32

/-- One group of the `{sampleid}_mapstats.hdf5` file (lines 151-167). -/
structure StatsGroup where
  reads_per_ivl : List (List Nat)
  ivls_type : List String
  ivls_len : List Nat
  valid_intron : List Bool
  deriving Repr, DecidableEq

/-- Lines 154-167: the datasets stored in the group of one gene.
`reads_per_ivl` is `np.row_stack` of the junction5, inside and junction3
count vectors; the three per-interval arrays follow `g.ivls` order. -/
def buildStatsGroup (g : Gene) : StatsGroup where
  reads_per_ivl :=
    [g.ivljunction5_read_counts, g.ivlinside_read_counts, g.ivljunction3_read_counts]
  ivls_type := g.ivls.map (fun ivl => take3 ivl.ivltype)
  ivls_len := g.ivls.map (fun ivl => u32 (ivl.end_ - ivl.start).natAbs)
  valid_intron := g.ivls.map (fun ivl => ivl.is_sure_valid_intron)

/-- Lines 151-153: one group per gene, named by `g.geneid`, in gene order. -/
def buildStats (genes : List Gene) : List (String × StatsGroup) :=
  genes.map (fun g => (g.geneid, buildStatsGroup g))

/- ---------------------------------------------------------------
Pipeline step order (`_run.py` top level).
--------------------------------------------------------------- -/

/-- The externally visible stages of `_run`, in source order. -/
inductive PipelineStep where
  | resolveIdentity
  | makeOutputFolder
  | readBarcodeFile
  | metadataMerge
  | readGenes
  | readRepeats
  | markUpIntrons
  | countMolecules
  | writeLastExonCounts
  | writeMapStats
  | writeLoom
  deriving Repr, DecidableEq

/-- The stages that constitute counting work (lines 87, 96, 107/114). -/
def countingSteps : List PipelineStep :=
  [PipelineStep.readGenes, PipelineStep.markUpIntrons, PipelineStep.countMolecules]

/-- Stage trace of `_run`: the list of stages performed and the fatal error,
if any.  Lines 39-40 guard the whole body: when `sampleid is None` while a
metadata table is given, the assert fires before anything else runs. -/
def pipelineRun (sampleid : Option String) (metadatatable : Option String)
    (bcfile : Option (List String)) (repmask : Option String) :
    List PipelineStep × Option String :=
  if sampleid.isNone && metadatatable.isSome then
    ([], some "Cannot fetch sample metadata without valid sampleid")
  else
    ([PipelineStep.resolveIdentity, PipelineStep.makeOutputFolder]
      ++ (if bcfile.isSome then [PipelineStep.readBarcodeFile] else [])
      ++ (if metadatatable.isSome then [PipelineStep.metadataMerge] else [])
      ++ [PipelineStep.readGenes]
      ++ (if repmask.isSome then [PipelineStep.readRepeats] else [])
      ++ [PipelineStep.markUpIntrons, PipelineStep.countMolecules,
          PipelineStep.writeLastExonCounts, PipelineStep.writeMapStats,
          PipelineStep.writeLoom], none)

/- ---------------------------------------------------------------
Batch dispatcher (`multi10x.py`).
--------------------------------------------------------------- -/

set_option linter.unusedVariables false in
/-- Line 64: `glob.glob("/data/proj/chromium/10X*")` over a modelled
filesystem, given as an association list from directory path to entry names.
The `parentfolder` argument of `multi10x` is accepted but never consulted. -/
def candidateSamples (fs : List (String × List String)) (parentfolder : String) :
    List String :=
  (((dlookup "/data/proj/chromium" fs).getD []).filter
      (fun nm => nm.startsWith "10X")).map
    (fun nm => "/data/proj/chromium/" ++ nm)

/-- The filesystem observations that decide one iteration of the dispatch
loop for one candidate directory (lines 73-91). -/
structure Candidate where
  vcDirExists : Bool
  mkdirRaces : Bool
  hasLoom : Bool
  logExists : Bool
  deriving Repr, DecidableEq

/-- Lines 73-91: a candidate leads to `subprocess.Popen` exactly when the
mkdir claim does not hit the `FileExistsError` race and neither a completed
loom file nor a log file is present. -/
def launches (c : Candidate) : Bool :=
  if !c.vcDirExists && c.mkdirRaces then false
  else !c.hasLoom && !c.logExists

/-- Dispatcher loop state: workers spawned so far and whether `sys.exit()`
was reached (line 95). -/
structure DispatchState where
  launched : Nat
  exited : Bool
  deriving Repr, DecidableEq

/-- One iteration of the loop of lines 69-98: spawn when launchable, then
`if n >= number: sys.exit()`. -/
def dispatchStep (number : Nat) (st : DispatchState) (c : Candidate) :
    DispatchState :=
  if st.exited then st
  else if launches c then
    { launched := st.launched + 1, exited := decide (number ≤ st.launched + 1) }
  else st

/-- The whole dispatch loop over the sorted candidate list. -/
def runDispatch (number : Nat) (cands : List Candidate) : DispatchState :=
  cands.foldl (dispatchStep number) { launched := 0, exited := false }

/-- A small concrete gene (two intervals, two cells) used to evaluate the
definitions on closed inputs. -/
def demoGene : Gene where
  genename := "Abc"
  geneid := "ENSG01"
  chrom := "1"
  strand := "+"
  start := 100
  end_ := 200
  ivls := [{ ivltype := "5ex", start := 100, end_ := 150, is_sure_valid_intron := false },
           { ivltype := "int", start := 180, end_ := 150, is_sure_valid_intron := true }]
  ivljunction5_read_counts := [7, 0]
  ivlinside_read_counts := [3, 1]
  ivljunction3_read_counts := [2, 5]
  spliced_mol_counts := [1, 2]
  unspliced_mol_counts := [3, 4]
  ambiguous_mol_counts := [5, 6]

/- ---------------------------------------------------------------
Helper lemmas about the dict model.
--------------------------------------------------------------- -/

theorem dlookup_dinsert_self {α : Type} (k : String) (v : α) (d : List (String × α)) :
    dlookup k (dinsert k v d) = some v := by
  induction d with
  | nil => simp [dinsert, dlookup]
  | cons p ps ih =>
    by_cases h : p.1 = k
    · simp [dinsert, dlookup, h]
    · simp [dinsert, dlookup, h, ih]

theorem dlookup_dinsert_ne {α : Type} {k k' : String} (h : k' ≠ k) (v : α)
    (d : List (String × α)) : dlookup k' (dinsert k v d) = dlookup k' d := by
  have hne : ¬ k = k' := fun hh => h hh.symm
  induction d with
  | nil => simp [dinsert, dlookup, hne]
  | cons p ps ih =>
    by_cases hp : p.1 = k
    · simp [dinsert, dlookup, hp, hne]
    · simp only [dinsert, if_neg hp, dlookup]
      by_cases hp' : p.1 = k'
      · simp [hp']
      · simp [hp', ih]

theorem dinsert_values {α : Type} (P : α → Prop) {k : String} {v : α}
    {d : List (String × α)} (hd : ∀ p ∈ d, P p.2) (hv : P v) :
    ∀ p ∈ dinsert k v d, P p.2 := by
  induction d with
  | nil => simpa [dinsert]
  | cons q qs ih =>
    intro p hp
    by_cases h : q.1 = k
    · simp only [dinsert, h, if_pos rfl] at hp
      rcases List.mem_cons.mp hp with h1 | h1
      · subst h1; exact hv
      · exact hd p (List.mem_cons_of_mem q h1)
    · simp only [dinsert, h, if_neg h] at hp
      rcases List.mem_cons.mp hp with h1 | h1
      · rw [h1]; exact hd q (List.mem_cons_self q qs)
      · exact ih (fun r hr => hd r (List.mem_cons_of_mem q hr)) p h1

theorem foldl_dinsert_values {α : Type} (P : α → Prop)
    (g : String × String → α) (sample : List (String × String)) :
    ∀ acc : List (String × α), (∀ p ∈ acc, P p.2) → (∀ kv ∈ sample, P (g kv)) →
      ∀ p ∈ sample.foldl (fun acc kv => dinsert kv.1 (g kv) acc) acc, P p.2 := by
  induction sample with
  | nil => intro acc hacc _ p hp; exact hacc p hp
  | cons kv kvs ih =>
    intro acc hacc hg p hp
    simp only [List.foldl_cons] at hp
    exact ih (dinsert kv.1 (g kv) acc)
      (dinsert_values P hacc (hg kv (List.mem_cons_self kv kvs)))
      (fun r hr => hg r (List.mem_cons_of_mem kv hr)) p hp

theorem dupdate_values {α : Type} (P : α → Prop) {d d2 : List (String × α)}
    (hd : ∀ p ∈ d, P p.2) (h2 : ∀ p ∈ d2, P p.2) :
    ∀ p ∈ dupdate d d2, P p.2 := by
  induction d2 generalizing d with
  | nil => intro p hp; exact hd p hp
  | cons kv kvs ih =>
    intro p hp
    simp only [dupdate, List.foldl_cons] at hp
    exact ih (dinsert_values P hd (h2 kv (List.mem_cons_self kv kvs)))
      (fun r hr => h2 r (List.mem_cons_of_mem kv hr)) p hp

theorem foldl_dinsert_lookup_of_forall_ne {α : Type} (g : String × String → α)
    (sample : List (String × String)) {k : String} :
    ∀ acc : List (String × α), (∀ p ∈ sample, p.1 ≠ k) →
      dlookup k (sample.foldl (fun acc kv => dinsert kv.1 (g kv) acc) acc) =
        dlookup k acc := by
  induction sample with
  | nil => intro acc _; rfl
  | cons kv kvs ih =>
    intro acc h
    simp only [List.foldl_cons]
    rw [ih (dinsert kv.1 (g kv) acc) (fun r hr => h r (List.mem_cons_of_mem kv hr))]
    exact dlookup_dinsert_ne (fun hh => h kv (List.mem_cons_self kv kvs) hh.symm) (g kv) acc

theorem foldl_dinsert_lookup_of_mem {α : Type} (g : String × String → α)
    (sample : List (String × String)) {k : String} {v : String} :
    ∀ acc : List (String × α), (sample.map Prod.fst).Nodup → (k, v) ∈ sample →
      dlookup k (sample.foldl (fun acc kv => dinsert kv.1 (g kv) acc) acc) =
        some (g (k, v)) := by
  induction sample with
  | nil => intro acc _ hmem; cases hmem
  | cons kv kvs ih =>
    intro acc hnd hmem
    simp only [List.map_cons, List.nodup_cons] at hnd
    rcases List.mem_cons.mp hmem with h1 | h1
    · subst h1
      have h5 : k ∉ List.map Prod.fst kvs := by simpa using hnd.1
      simp only [List.foldl_cons]
      rw [foldl_dinsert_lookup_of_forall_ne g kvs (dinsert k (g (k, v)) acc)
          (fun r hr hrk => h5 (by rw [← hrk]; exact List.mem_map_of_mem Prod.fst hr))]
      exact dlookup_dinsert_self k (g (k, v)) acc
    · simp only [List.foldl_cons]
      exact ih (dinsert kv.1 (g kv) acc) hnd.2 h1

/- ---------------------------------------------------------------
Helper lemmas about cell identities and layers.
--------------------------------------------------------------- -/

theorem length_finalCellIds (sampleid : String) (src : BcSource) :
    (finalCellIds sampleid src).length = (finalBcs src).length := by
  cases src with
  | prevalidated lines => simp [finalCellIds, finalBcs, prevalidatedCellIds]
  | discovered tbl => simp [finalCellIds, finalBcs, discoveredCellIds]

theorem matAdd_length (a b : List (List Nat)) :
    (matAdd a b).length = min a.length b.length :=
  List.length_zipWith _ a b

theorem matAdd_getD (a b : List (List Nat)) (i : Nat)
    (hia : i < a.length) (hib : i < b.length) :
    (matAdd a b).getD i [] =
      List.zipWith (fun x y => x + y) (a.getD i []) (b.getD i []) := by
  have hm : i < (matAdd a b).length := by
    rw [matAdd_length]; exact lt_min hia hib
  rw [List.getD_eq_getElem _ _ hm, List.getD_eq_getElem _ _ hia,
    List.getD_eq_getElem _ _ hib]
  exact List.getElem_zipWith ..

theorem zipWith_add_getD (r s : List Nat) (j : Nat)
    (hjr : j < r.length) (hjs : j < s.length) :
    (List.zipWith (fun x y => x + y) r s).getD j 0 = r.getD j 0 + s.getD j 0 := by
  have hm : j < (List.zipWith (fun x y : Nat => x + y) r s).length := by
    rw [List.length_zipWith]; exact lt_min hjr hjs
  rw [List.getD_eq_getElem _ _ hm, List.getD_eq_getElem _ _ hjr,
    List.getD_eq_getElem _ _ hjs]
  exact List.getElem_zipWith ..

theorem layerSpliced_getD (genes : List Gene) (i : Nat) (hi : i < genes.length) :
    (layerSpliced genes).getD i [] = (genes.getD i default).spliced_mol_counts := by
  have h1 : i < (layerSpliced genes).length := by simpa [layerSpliced] using hi
  rw [List.getD_eq_getElem _ _ h1, List.getD_eq_getElem _ _ hi]
  simp [layerSpliced]

theorem layerUnspliced_getD (genes : List Gene) (i : Nat) (hi : i < genes.length) :
    (layerUnspliced genes).getD i [] = (genes.getD i default).unspliced_mol_counts := by
  have h1 : i < (layerUnspliced genes).length := by simpa [layerUnspliced] using hi
  rw [List.getD_eq_getElem _ _ h1, List.getD_eq_getElem _ _ hi]
  simp [layerUnspliced]

theorem layerAmbiguous_getD (genes : List Gene) (i : Nat) (hi : i < genes.length) :
    (layerAmbiguous genes).getD i [] = (genes.getD i default).ambiguous_mol_counts := by
  have h1 : i < (layerAmbiguous genes).length := by simpa [layerAmbiguous] using hi
  rw [List.getD_eq_getElem _ _ h1, List.getD_eq_getElem _ _ hi]
  simp [layerAmbiguous]

theorem totalLayer_getD (genes : List Gene) (i : Nat) (hi : i < genes.length) :
    (totalLayer genes).getD i [] =
      List.zipWith (fun x y => x + y)
        (List.zipWith (fun x y => x + y) (genes.getD i default).spliced_mol_counts
          (genes.getD i default).unspliced_mol_counts)
        (genes.getD i default).ambiguous_mol_counts := by
  have hs : i < (layerSpliced genes).length := by simpa [layerSpliced] using hi
  have hu : i < (layerUnspliced genes).length := by simpa [layerUnspliced] using hi
  have ha : i < (layerAmbiguous genes).length := by simpa [layerAmbiguous] using hi
  have hsu : i < (matAdd (layerSpliced genes) (layerUnspliced genes)).length := by
    rw [matAdd_length]; exact lt_min hs hu
  unfold totalLayer
  rw [matAdd_getD _ _ _ hsu ha, matAdd_getD _ _ _ hs hu,
    layerSpliced_getD genes i hi, layerUnspliced_getD genes i hi,
    layerAmbiguous_getD genes i hi]

theorem getD_mem_of_lt {α : Type} [Inhabited α] (l : List α) (i : Nat)
    (hi : i < l.length) : l.getD i default ∈ l := by
  rw [List.getD_eq_getElem _ _ hi]
  exact List.getElem_mem hi

/- ---------------------------------------------------------------
Claim theorems.
--------------------------------------------------------------- -/

/-- Claim C1: for the single-sample pipeline, the primary persisted matrix
`total` (line 202) is the elementwise sum of the spliced, unspliced and
ambiguous layers at every gene row and cell column, and the three named
layers have the same shape (genes x cells) as `total`.  The hypotheses state
the counting-engine contract that each per-gene count vector has one entry
per cell (this is what the numpy row assignments of lines 197-200 require). -/
theorem C1_total_is_elementwise_sum (genes : List Gene) (ncells : Nat)
    (hs : ∀ g ∈ genes, g.spliced_mol_counts.length = ncells)
    (hu : ∀ g ∈ genes, g.unspliced_mol_counts.length = ncells)
    (ha : ∀ g ∈ genes, g.ambiguous_mol_counts.length = ncells) :
    ((totalLayer genes).length = genes.length ∧
      (layerSpliced genes).length = genes.length ∧
      (layerUnspliced genes).length = genes.length ∧
      (layerAmbiguous genes).length = genes.length) ∧
    ((∀ row ∈ totalLayer genes, row.length = ncells) ∧
      (∀ row ∈ layerSpliced genes, row.length = ncells) ∧
      (∀ row ∈ layerUnspliced genes, row.length = ncells) ∧
      (∀ row ∈ layerAmbiguous genes, row.length = ncells)) ∧
    (∀ i j : Nat, i < genes.length → j < ncells →
      ((totalLayer genes).getD i []).getD j 0 =
        ((layerSpliced genes).getD i []).getD j 0 +
          ((layerUnspliced genes).getD i []).getD j 0 +
          ((layerAmbiguous genes).getD i []).getD j 0) := by
  refine ⟨⟨?_, ?_, ?_, ?_⟩, ⟨?_, ?_, ?_, ?_⟩, ?_⟩
  · simp [totalLayer, matAdd_length, layerSpliced, layerUnspliced, layerAmbiguous]
  · simp [layerSpliced]
  · simp [layerUnspliced]
  · simp [layerAmbiguous]
  · intro row hrow
    have hlen : (totalLayer genes).length = genes.length := by
      simp [totalLayer, matAdd_length, layerSpliced, layerUnspliced, layerAmbiguous]
    rcases List.mem_iff_getElem.mp hrow with ⟨i, hilt, hieq⟩
    have hi : i < genes.length := hlen ▸ hilt
    have hrow_eq : row = (totalLayer genes).getD i [] := by
      rw [List.getD_eq_getElem _ _ hilt, hieq]
    have hg : genes.getD i default ∈ genes := getD_mem_of_lt genes i hi
    rw [hrow_eq, totalLayer_getD genes i hi]
    rw [List.length_zipWith, List.length_zipWith, hs _ hg, hu _ hg, ha _ hg]
    simp
  · intro row hrow
    rcases List.mem_map.mp hrow with ⟨g, hg, hgeq⟩
    rw [← hgeq]; exact hs g hg
  · intro row hrow
    rcases List.mem_map.mp hrow with ⟨g, hg, hgeq⟩
    rw [← hgeq]; exact hu g hg
  · intro row hrow
    rcases List.mem_map.mp hrow with ⟨g, hg, hgeq⟩
    rw [← hgeq]; exact ha g hg
  · intro i j hi hj
    have hg : genes.getD i default ∈ genes := getD_mem_of_lt genes i hi
    rw [totalLayer_getD genes i hi, layerSpliced_getD genes i hi,
      layerUnspliced_getD genes i hi, layerAmbiguous_getD genes i hi]
    rw [zipWith_add_getD, zipWith_add_getD]
    · rw [hs _ hg]; exact hj
    · rw [hu _ hg]; exact hj
    · rw [List.length_zipWith]
      rw [hs _ hg, hu _ hg]
      exact lt_min hj hj
    · rw [ha _ hg]; exact hj

/-- Claim C1 witness: a concrete one-gene, two-cell run evaluating the
hypotheses and the elementwise conclusion of `C1_total_is_elementwise_sum`. -/
theorem C1_witness :
    (∀ g ∈ [demoGene], g.spliced_mol_counts.length = 2) ∧
      (∀ g ∈ [demoGene], g.unspliced_mol_counts.length = 2) ∧
      (∀ g ∈ [demoGene], g.ambiguous_mol_counts.length = 2) ∧
      ∀ i j : Nat, i < ([demoGene] : List Gene).length → j < 2 →
        ((totalLayer [demoGene]).getD i []).getD j 0 =
          ((layerSpliced [demoGene]).getD i []).getD j 0 +
            ((layerUnspliced [demoGene]).getD i []).getD j 0 +
            ((layerAmbiguous [demoGene]).getD i []).getD j 0 :=
  ⟨by decide, by decide, by decide,
    (C1_total_is_elementwise_sum [demoGene] 2 (by decide) (by decide) (by decide)).2.2⟩

theorem buildRA_values (genes : List Gene) :
    ∀ p ∈ buildRA genes, p.2.length = genes.length := by
  intro p hp
  simp only [buildRA, List.mem_cons, List.not_mem_nil, or_false] at hp
  rcases hp with rfl | rfl | rfl | rfl | rfl | rfl <;> simp

theorem buildCA_values (cellids : List String)
    (additional_ca : List (String × List String)) (sample : List (String × String))
    (hadd : ∀ p ∈ additional_ca, p.2.length = cellids.length) :
    ∀ p ∈ buildCA cellids additional_ca sample, p.2.length = cellids.length := by
  refine foldl_dinsert_values (fun arr : List String => arr.length = cellids.length)
    (fun kv => List.replicate cellids.length kv.2) sample
    (dupdate [("CellID", cellids)] additional_ca) ?_ ?_
  · refine dupdate_values (fun arr : List String => arr.length = cellids.length)
      ?_ hadd
    intro p hp
    simp only [List.mem_singleton] at hp
    rw [hp]
  · intro kv _
    exact List.length_replicate _ _

/-- Claim C2 counterexample: nothing in `_run` validates the lengths of the
caller-supplied `additional_ca` arrays (line 123 is a bare `ca.update`), so a
run whose `additional_ca` carries a two-entry array alongside a single cell
produces a per-cell attribute whose length differs from the number of cells. -/
theorem C2_counterexample :
    ¬ ∀ p ∈ buildCA (finalCellIds "s" (BcSource.prevalidated ["AAA-1"]))
          [("X", ["a", "b"])] [],
        p.2.length = (finalCellIds "s" (BcSource.prevalidated ["AAA-1"])).length := by
  decide

/-- Claim C2 (amended): provided every caller-supplied additional column
attribute has one entry per cell (and the counting-engine vectors have one
entry per cell, as the numpy assignments require), every output layer of a
run in either barcode mode has one column per entry of the final
cell-identity list and one row per gene, every per-cell attribute array has
length equal to the cell count, and every per-gene attribute array has
length equal to the gene count. -/
theorem C2_shape_invariant (sampleid : String) (src : BcSource) (genes : List Gene)
    (additional_ca : List (String × List String)) (sample : List (String × String))
    (hadd : ∀ p ∈ additional_ca, p.2.length = (finalCellIds sampleid src).length)
    (hs : ∀ g ∈ genes, g.spliced_mol_counts.length = (finalBcs src).length)
    (hu : ∀ g ∈ genes, g.unspliced_mol_counts.length = (finalBcs src).length)
    (ha : ∀ g ∈ genes, g.ambiguous_mol_counts.length = (finalBcs src).length) :
    (finalCellIds sampleid src).length = (finalBcs src).length ∧
    (∀ p ∈ buildCA (finalCellIds sampleid src) additional_ca sample,
        p.2.length = (finalBcs src).length) ∧
    ((layerSpliced genes).length = genes.length ∧
      (layerUnspliced genes).length = genes.length ∧
      (layerAmbiguous genes).length = genes.length ∧
      (totalLayer genes).length = genes.length) ∧
    ((∀ row ∈ layerSpliced genes, row.length = (finalBcs src).length) ∧
      (∀ row ∈ layerUnspliced genes, row.length = (finalBcs src).length) ∧
      (∀ row ∈ layerAmbiguous genes, row.length = (finalBcs src).length) ∧
      (∀ row ∈ totalLayer genes, row.length = (finalBcs src).length)) ∧
    (∀ p ∈ buildRA genes, p.2.length = genes.length) := by
  have hcl := length_finalCellIds sampleid src
  refine ⟨hcl, ?_, ⟨?_, ?_, ?_, ?_⟩, ⟨?_, ?_, ?_, ?_⟩, buildRA_values genes⟩
  · intro p hp
    rw [← hcl]
    exact buildCA_values _ additional_ca sample
      (fun q hq => by rw [hadd q hq]) p hp
  · simp [layerSpliced]
  · simp [layerUnspliced]
  · simp [layerAmbiguous]
  · simp [totalLayer, matAdd_length, layerSpliced, layerUnspliced, layerAmbiguous]
  · intro row hrow
    rcases List.mem_map.mp hrow with ⟨g, hg, hgeq⟩
    rw [← hgeq]; exact hs g hg
  · intro row hrow
    rcases List.mem_map.mp hrow with ⟨g, hg, hgeq⟩
    rw [← hgeq]; exact hu g hg
  · intro row hrow
    rcases List.mem_map.mp hrow with ⟨g, hg, hgeq⟩
    rw [← hgeq]; exact ha g hg
  · intro row hrow
    have hlen : (totalLayer genes).length = genes.length := by
      simp [totalLayer, matAdd_length, layerSpliced, layerUnspliced, layerAmbiguous]
    rcases List.mem_iff_getElem.mp hrow with ⟨i, hilt, hieq⟩
    have hi : i < genes.length := hlen ▸ hilt
    have hrow_eq : row = (totalLayer genes).getD i [] := by
      rw [List.getD_eq_getElem _ _ hilt, hieq]
    have hg : genes.getD i default ∈ genes := getD_mem_of_lt genes i hi
    rw [hrow_eq, totalLayer_getD genes i hi]
    rw [List.length_zipWith, List.length_zipWith, hs _ hg, hu _ hg, ha _ hg]
    simp

/-- Claim C2 witness: a concrete prevalidated run with two cells, one gene,
one well-sized additional column attribute and one metadata field,
discharging the hypotheses of `C2_shape_invariant`. -/
theorem C2_witness :
    ((∀ p ∈ ([("Age", ["7", "8"])] : List (String × List String)),
        p.2.length =
          (finalCellIds "s" (BcSource.prevalidated ["AAA-1", "TTT-1"])).length) ∧
      (∀ g ∈ [demoGene],
        g.spliced_mol_counts.length =
          (finalBcs (BcSource.prevalidated ["AAA-1", "TTT-1"])).length)) ∧
    (∀ p ∈ buildCA (finalCellIds "s" (BcSource.prevalidated ["AAA-1", "TTT-1"]))
          [("Age", ["7", "8"])] [("Batch", "b")],
        p.2.length = (finalBcs (BcSource.prevalidated ["AAA-1", "TTT-1"])).length) :=
  ⟨⟨by decide, by decide⟩,
    (C2_shape_invariant "s" (BcSource.prevalidated ["AAA-1", "TTT-1"]) [demoGene]
        [("Age", ["7", "8"])] [("Batch", "b")]
        (by decide) (by decide) (by decide) (by decide)).2.1⟩

/-- Claim C3 counterexample: in Prevalidated mode line 56 builds
`{sampleid}:{v_bc}` from the barcode file line verbatim, appending no
suffix; a barcode file line without the `-1` suffix therefore yields a
cell identity that does not have the claimed `{sampleid}:{barcode}-1` form. -/
theorem C3_counterexample :
    ∃ entry ∈ finalCellIds "s" (BcSource.prevalidated ["ACGT"]),
      ¬ hasCellIdForm "s" entry := by
  refine ⟨"s:ACGT", by decide, ?_⟩
  rintro ⟨bare, h⟩
  have hd := congrArg (fun t => t.data.reverse) h
  simp only [String.data_append, List.reverse_append] at hd
  have h1 : ("s:ACGT" : String).data.reverse = ['T', 'G', 'C', 'A', ':', 's'] := by
    decide
  have h2 : ("-1" : String).data.reverse = ['1', '-'] := by decide
  rw [h1, h2] at hd
  simp at hd

/-- Claim C3 (amended): in Discovered mode every entry of the final
cell-identity list has the form `{sampleid}:{barcode}-1` (line 119 appends
the suffix); in Prevalidated mode the entry is `{sampleid}:{line}` with the
stripped file line used verbatim, so it has that form exactly when the file
line itself carries the `-1` suffix. -/
theorem C3_cellid_forms (sampleid : String) :
    (∀ tbl : List (String × Nat),
        ∀ entry ∈ finalCellIds sampleid (BcSource.discovered tbl),
          hasCellIdForm sampleid entry) ∧
    (∀ lines : List String, (∀ l ∈ lines, ∃ bare, stripLine l = bare ++ "-1") →
        ∀ entry ∈ finalCellIds sampleid (BcSource.prevalidated lines),
          hasCellIdForm sampleid entry) := by
  constructor
  · intro tbl entry he
    simp only [finalCellIds, discoveredCellIds, List.mem_map] at he
    rcases he with ⟨v, _, rfl⟩
    exact ⟨v, rfl⟩
  · intro lines hl entry he
    simp only [finalCellIds, prevalidatedCellIds, prevalidatedBcs,
      List.mem_map] at he
    rcases he with ⟨v, ⟨l, hlmem, hstrip⟩, rfl⟩
    rcases hl l hlmem with ⟨bare, hbare⟩
    refine ⟨bare, ?_⟩
    rw [← hstrip, hbare, ← String.append_assoc]

/-- Claim C3 witness: concrete runs in both modes whose entries all have the
`{sampleid}:{barcode}-1` form, discharging the prevalidated-mode hypothesis
on a barcode file whose line carries the `-1` suffix. -/
theorem C3_witness :
    (∀ l ∈ ["ACGT-1"], ∃ bare, stripLine l = bare ++ "-1") ∧
    (∀ entry ∈ finalCellIds "smpl" (BcSource.prevalidated ["ACGT-1"]),
        hasCellIdForm "smpl" entry) ∧
    (∀ entry ∈ finalCellIds "smpl" (BcSource.discovered [("CCC", 0)]),
        hasCellIdForm "smpl" entry) := by
  have h1 : ∀ l ∈ ["ACGT-1"], ∃ bare, stripLine l = bare ++ "-1" := by
    intro l hl
    simp only [List.mem_singleton] at hl
    subst hl
    exact ⟨"ACGT", by decide⟩
  exact ⟨h1, (C3_cellid_forms "smpl").2 ["ACGT-1"] h1,
    (C3_cellid_forms "smpl").1 [("CCC", 0)]⟩

/-- Claim C5: the claim asserts that the candidate sample directories are the
subdirectories of the supplied parent folder matching the naming pattern.
The code instead globs the hardcoded path `/data/proj/chromium/10X*`: the
candidate list is independent of the `parentfolder` argument, and a parent
folder that does contain matching subdirectories contributes no candidates.
The declared CLI contract (a required, validated `PARENTFOLDER` argument)
makes the spec the clear intent, so this is a code bug. -/
theorem C5_candidates_ignore_parentfolder :
    (∀ (fs : List (String × List String)) (p1 p2 : String),
        candidateSamples fs p1 = candidateSamples fs p2) ∧
      candidateSamples
          [("/tmp/samples", ["10X99_1"]), ("/data/proj/chromium", [])]
          "/tmp/samples" = [] := by
  constructor
  · intro fs p1 p2; rfl
  · rfl

/-- Claim C6 counterexample: with concurrency cap 0 and a single launchable
candidate the dispatcher still spawns one worker, because the cap check
`if n >= number: sys.exit()` only runs after a spawn. -/
theorem C6_counterexample_cap_zero :
    ¬ (runDispatch 0
          [{ vcDirExists := true, mkdirRaces := false,
             hasLoom := false, logExists := false }]).launched ≤ 0 := by
  decide

/-- Claim C6 (amended): in a single invocation the dispatcher spawns at most
`max number 1` workers: the cap is respected for every positive cap, and a
non-positive cap still admits exactly one launch before the exit check. -/
theorem C6_launch_bound (number : Nat) (cands : List Candidate) :
    (runDispatch number cands).launched ≤ max number 1 := by
  suffices h : ∀ st : DispatchState,
      (st.exited = false → st.launched < max number 1) →
      st.launched ≤ max number 1 →
      (cands.foldl (dispatchStep number) st).launched ≤ max number 1 by
    exact h { launched := 0, exited := false }
      (fun _ => lt_max_of_lt_right Nat.zero_lt_one) (Nat.zero_le _)
  induction cands with
  | nil => intro st _ h2; exact h2
  | cons c cs ih =>
    intro st h1 h2
    simp only [List.foldl_cons]
    rcases hex : st.exited with _ | _
    · rcases hla : launches c with _ | _
      · have hst : dispatchStep number st c = st := by
          simp [dispatchStep, hex, hla]
        rw [hst]
        exact ih st h1 h2
      · have hlt := h1 hex
        have hst : dispatchStep number st c =
            { launched := st.launched + 1,
              exited := decide (number ≤ st.launched + 1) } := by
          simp [dispatchStep, hex, hla]
        rw [hst]
        by_cases hcap : number ≤ st.launched + 1
        · rw [decide_eq_true hcap]
          exact ih { launched := st.launched + 1, exited := true }
            (fun hc => by simp at hc) hlt
        · rw [decide_eq_false hcap]
          exact ih { launched := st.launched + 1, exited := false }
            (fun _ => lt_of_lt_of_le (Nat.lt_of_not_le hcap) (le_max_left number 1))
            hlt
    · have hst : dispatchStep number st c = st := by
        simp [dispatchStep, hex]
      rw [hst]
      exact ih st (fun hc => by rw [hex] at hc; exact absurd hc (by decide)) h2

/-- Claim C7: the spec says an empty barcode file yields zero cells without
error, but line 59 of `_run.py` logs `valid_bcs_list[0]`, which raises
`IndexError` on an empty list: prevalidated reconciliation fails instead of
proceeding with an empty cell-identity list. -/
theorem C7_empty_barcode_file_raises (sampleid : String) :
    prevalidatedReconcile sampleid [] =
      Except.error "IndexError: list index out of range" := rfl

/-- Claim C8: requesting a metadata table with no explicit sample id makes
`_run` fail at the assert of lines 39-40, before any stage runs: the stage
trace is empty (in particular no counting step was performed) and the fatal
error is reported. -/
theorem C8_metadata_without_sampleid_fatal (metadatatable : String)
    (bcfile : Option (List String)) (repmask : Option String) :
    pipelineRun none (some metadatatable) bcfile repmask =
        ([], some "Cannot fetch sample metadata without valid sampleid") ∧
      ∀ s ∈ countingSteps, s ∉ (pipelineRun none (some metadatatable) bcfile repmask).1 := by
  refine ⟨rfl, ?_⟩
  intro s _ hs
  simp [pipelineRun] at hs

/-- Claim C8 witness: the fatal configuration error at a concrete input. -/
theorem C8_witness :
    pipelineRun none (some "meta.csv") none none =
        ([], some "Cannot fetch sample metadata without valid sampleid") ∧
      ∀ s ∈ countingSteps, s ∉ (pipelineRun none (some "meta.csv") none none).1 :=
  C8_metadata_without_sampleid_fatal "meta.csv" none none

/-- Claim C4: the metadata lookup dispatches on the matching row count
(lines 66-75): zero rows proceed with an empty mapping so the column
attributes gain no extra key; exactly one row is broadcast, every field
becoming a column identical (a replicate) across all cells; two or more rows
terminate the pipeline with exit status 1, which is non-zero. -/
theorem C4_metadata_row_count_behavior (cellids : List String)
    (additional_ca : List (String × List String)) :
    (metadataSelect [] = Except.ok [] ∧
      buildCA cellids additional_ca [] =
        dupdate [("CellID", cellids)] additional_ca) ∧
    (∀ r : List (String × String),
      metadataSelect [r] = Except.ok r ∧
        ((r.map Prod.fst).Nodup → ∀ kv ∈ r,
          dlookup kv.1 (buildCA cellids additional_ca r) =
            some (List.replicate cellids.length kv.2))) ∧
    (∀ (r1 r2 : List (String × String)) (rest : List (List (String × String))),
      metadataSelect (r1 :: r2 :: rest) = Except.error 1 ∧ (1 : Nat) ≠ 0) := by
  refine ⟨⟨rfl, rfl⟩, ?_, ?_⟩
  · intro r
    refine ⟨rfl, ?_⟩
    rintro hnd ⟨k, v⟩ hkv
    exact foldl_dinsert_lookup_of_mem
      (fun kv => List.replicate cellids.length kv.2) r
      (dupdate [("CellID", cellids)] additional_ca) hnd hkv
  · intro r1 r2 rest
    exact ⟨rfl, one_ne_zero⟩

/-- Claim C4 witness: a concrete one-row metadata table with two fields,
broadcast over two cells, discharging the key-uniqueness hypothesis. -/
theorem C4_witness :
    (([("Batch", "b"), ("Lot", "7")].map Prod.fst).Nodup ∧
      ∀ kv ∈ [("Batch", "b"), ("Lot", "7")],
        dlookup kv.1 (buildCA ["s:A-1", "s:B-1"] [("Age", ["7", "8"])]
            [("Batch", "b"), ("Lot", "7")]) =
          some (List.replicate 2 kv.2)) ∧
      metadataSelect [[("Batch", "b"), ("Lot", "7")]] =
        Except.ok [("Batch", "b"), ("Lot", "7")] :=
  ⟨⟨by decide,
    ((C4_metadata_row_count_behavior ["s:A-1", "s:B-1"] [("Age", ["7", "8"])]).2.1
        [("Batch", "b"), ("Lot", "7")]).2 (by decide)⟩,
    ((C4_metadata_row_count_behavior ["s:A-1", "s:B-1"] [("Age", ["7", "8"])]).2.1
        [("Batch", "b"), ("Lot", "7")]).1⟩

theorem dlookup_buildStats (genes : List Gene)
    (hnd : (genes.map (fun g => g.geneid)).Nodup) :
    ∀ g ∈ genes, dlookup g.geneid (buildStats genes) = some (buildStatsGroup g) := by
  induction genes with
  | nil => intro g hg; cases hg
  | cons g0 gs ih =>
    intro g hg
    simp only [List.map_cons, List.nodup_cons] at hnd
    rcases List.mem_cons.mp hg with rfl | h1
    · simp [buildStats, dlookup]
    · have hne : ¬ g0.geneid = g.geneid :=
        fun he => hnd.1 (by rw [he]; exact List.mem_map_of_mem _ h1)
      simp only [buildStats, List.map_cons, dlookup, if_neg hne]
      exact ih hnd.2 g h1

theorem take3_of_le {s : String} (h : s.data.length ≤ 3) : take3 s = s := by
  show String.mk (s.data.take 3) = s
  rw [List.take_of_length_le h]

theorem u32_of_lt {n : Nat} (h : n < 2 ^ 32) : u32 n = n :=
  Nat.mod_eq_of_lt h

/-- Claim C9: under the counting-engine contract that the three per-interval
count vectors have one entry per interval, that interval-type tags fit the
3-byte storage dtype, and that interval lengths fit `uint32` (and assuming
gene ids are unique, as `create_group` requires), the structural-statistics
artifact contains for every gene one group keyed by its gene id, holding the
3 x (number of intervals) matrix with the junction5, inside and junction3
rows in that order, the interval-type array, the `|end - start|` length
array, and the valid-intron flag array, all in the gene interval order. -/
theorem C9_stats_groups (genes : List Gene)
    (hnd : (genes.map (fun g => g.geneid)).Nodup)
    (hj5 : ∀ g ∈ genes, g.ivljunction5_read_counts.length = g.ivls.length)
    (hin : ∀ g ∈ genes, g.ivlinside_read_counts.length = g.ivls.length)
    (hj3 : ∀ g ∈ genes, g.ivljunction3_read_counts.length = g.ivls.length)
    (hty : ∀ g ∈ genes, ∀ ivl ∈ g.ivls, ivl.ivltype.data.length ≤ 3)
    (hlen : ∀ g ∈ genes, ∀ ivl ∈ g.ivls, (ivl.end_ - ivl.start).natAbs < 2 ^ 32) :
    ∀ g ∈ genes,
      dlookup g.geneid (buildStats genes) = some (buildStatsGroup g) ∧
      (buildStatsGroup g).reads_per_ivl =
        [g.ivljunction5_read_counts, g.ivlinside_read_counts,
          g.ivljunction3_read_counts] ∧
      (buildStatsGroup g).reads_per_ivl.length = 3 ∧
      (∀ row ∈ (buildStatsGroup g).reads_per_ivl, row.length = g.ivls.length) ∧
      (buildStatsGroup g).ivls_type = g.ivls.map (fun ivl => ivl.ivltype) ∧
      (buildStatsGroup g).ivls_len =
        g.ivls.map (fun ivl => (ivl.end_ - ivl.start).natAbs) ∧
      (buildStatsGroup g).valid_intron =
        g.ivls.map (fun ivl => ivl.is_sure_valid_intron) := by
  intro g hg
  refine ⟨dlookup_buildStats genes hnd g hg, rfl, rfl, ?_, ?_, ?_, rfl⟩
  · intro row hrow
    simp only [buildStatsGroup, List.mem_cons, List.not_mem_nil, or_false] at hrow
    rcases hrow with rfl | rfl | rfl
    · exact hj5 g hg
    · exact hin g hg
    · exact hj3 g hg
  · exact List.map_congr_left (fun ivl hivl => take3_of_le (hty g hg ivl hivl))
  · exact List.map_congr_left (fun ivl hivl => u32_of_lt (hlen g hg ivl hivl))

/-- Claim C9 witness: the concrete two-interval gene, with all engine-contract
hypotheses evaluated, and the group found under its gene id. -/
theorem C9_witness :
    ((([demoGene] : List Gene).map (fun g => g.geneid)).Nodup ∧
      (∀ g ∈ [demoGene], g.ivljunction5_read_counts.length = g.ivls.length) ∧
      (∀ g ∈ [demoGene], ∀ ivl ∈ g.ivls, ivl.ivltype.data.length ≤ 3) ∧
      (∀ g ∈ [demoGene], ∀ ivl ∈ g.ivls,
        (ivl.end_ - ivl.start).natAbs < 2 ^ 32)) ∧
    ∀ g ∈ [demoGene],
      dlookup g.geneid (buildStats [demoGene]) = some (buildStatsGroup g) ∧
        (buildStatsGroup g).ivls_len =
          g.ivls.map (fun ivl => (ivl.end_ - ivl.start).natAbs) :=
  ⟨⟨by decide, by decide, by decide, by decide⟩,
    fun g hg =>
      ⟨(C9_stats_groups [demoGene] (by decide) (by decide) (by decide) (by decide)
          (by decide) (by decide) g hg).1,
        (C9_stats_groups [demoGene] (by decide) (by decide) (by decide) (by decide)
          (by decide) (by decide) g hg).2.2.2.2.2.1⟩⟩

/-- Claim C10: metadata fields are merged into the column-attribute dict
last (lines 125-126), so a broadcast field whose name collides with any
already-present key, the caller-supplied additional attributes and the
`CellID` column included, overwrites that column with the replicated value,
while every key not named by a metadata field keeps the value it had after
`ca = {"CellID": ...}; ca.update(additional_ca)`. -/
theorem C10_metadata_overwrites (cellids : List String)
    (additional_ca : List (String × List String)) (sample : List (String × String))
    (hnd : (sample.map Prod.fst).Nodup) :
    (∀ kv ∈ sample,
        dlookup kv.1 (buildCA cellids additional_ca sample) =
          some (List.replicate cellids.length kv.2)) ∧
    (∀ k : String, (∀ kv ∈ sample, kv.1 ≠ k) →
        dlookup k (buildCA cellids additional_ca sample) =
          dlookup k (dupdate [("CellID", cellids)] additional_ca)) := by
  constructor
  · rintro ⟨k, v⟩ hkv
    exact foldl_dinsert_lookup_of_mem
      (fun kv => List.replicate cellids.length kv.2) sample
      (dupdate [("CellID", cellids)] additional_ca) hnd hkv
  · intro k hk
    exact foldl_dinsert_lookup_of_forall_ne
      (fun kv => List.replicate cellids.length kv.2) sample
      (dupdate [("CellID", cellids)] additional_ca) hk

/-- Claim C10 witness: a metadata row that names `CellID` and the additional
attribute `Age` overwrites both with broadcast values, while the additional
attribute `City`, not named by any metadata field, is left unchanged. -/
theorem C10_witness :
    (([("CellID", "x"), ("Age", "9")].map Prod.fst).Nodup ∧
      (∀ kv ∈ ([("CellID", "x"), ("Age", "9")] : List (String × String)), kv.1 ≠ "City")) ∧
    (∀ kv ∈ ([("CellID", "x"), ("Age", "9")] : List (String × String)),
        dlookup kv.1 (buildCA ["s:A-1", "s:B-1"]
            [("Age", ["1", "2"]), ("City", ["a", "b"])]
            [("CellID", "x"), ("Age", "9")]) =
          some (List.replicate 2 kv.2)) ∧
    dlookup "City" (buildCA ["s:A-1", "s:B-1"]
        [("Age", ["1", "2"]), ("City", ["a", "b"])]
        [("CellID", "x"), ("Age", "9")]) =
      dlookup "City" (dupdate [("CellID", ["s:A-1", "s:B-1"])]
        [("Age", ["1", "2"]), ("City", ["a", "b"])]) :=
  ⟨⟨by decide, by decide⟩,
    (C10_metadata_overwrites ["s:A-1", "s:B-1"]
        [("Age", ["1", "2"]), ("City", ["a", "b"])]
        [("CellID", "x"), ("Age", "9")] (by decide)).1,
    (C10_metadata_overwrites ["s:A-1", "s:B-1"]
        [("Age", ["1", "2"]), ("City", ["a", "b"])]
        [("CellID", "x"), ("Age", "9")] (by decide)).2 "City" (by decide)⟩

end Velocyto
